import Mathlib

/-
Verification development for the `@editablejs/plugin-toolbar` source file
(src/unnamed/part_000): a React toolbar layer over an external editor.

Shallow embedding conventions:
* `E` is the type of editor values passed to item callbacks (the external
  `Editable` object as seen by `onActive` / `onDisabled` / `onToggle`).
* `L` is the type of listener identities (the `EditorChangeHandler`
  callbacks stored in the `eventListeners` ref); invoking a listener is
  recorded as an event rather than executed, so call order is observable.
* `H` is the type of identities of externally installed
  `onSelectionChange` handlers.
* `I` is the type of toolbar items (usually `ToolbarItem E`).
* Mutation of `editor.onSelectionChange`, of the `eventListeners` array
  and of the `TOOLBAR_OPTIONS` WeakMap is modelled by explicit state
  passing; the WeakMap key (JS object identity) is modelled by the
  numeric field `eid` of the editor record.
-/

namespace EditablePlugin

/-- Component state of `ToolbarButtonDefault` (lines 41-42): the two
`useState` cells `active` and `disabled`. -/
structure ButtonState where
  active : Bool
  disabled : Bool
deriving DecidableEq, Repr

/-- Component state of `ToolbarDropdownDefault` (lines 93-94): the
`useState` cells `value : string | undefined` and `disabled`. -/
structure DropdownState where
  value : Option String
  disabled : Bool
deriving DecidableEq, Repr

/-- The `onChange` listener installed by `ToolbarButtonDefault`
(lines 45-50): `active = onActive ? onActive(editor) : false`,
`disabled = onDisabled ? onDisabled(editor) : false`; the two `setState`
calls make these the component state. -/
def ToolbarButtonDefault.onChange {E : Type}
    (onActive onDisabled : Option (E → Bool)) (e : E) : ButtonState :=
  { active := match onActive with
      | some f => f e
      | none => false
  , disabled := match onDisabled with
      | some f => f e
      | none => false }

/-- The `onChange` listener installed by `ToolbarDropdownDefault`
(lines 97-102): `value = onActive ? onActive(editor) : undefined`,
`disabled = onDisabled ? onDisabled(editor) : false`. -/
def ToolbarDropdownDefault.onChange {E : Type}
    (onActive : Option (E → String)) (onDisabled : Option (E → Bool))
    (e : E) : DropdownState :=
  { value := match onActive with
      | some f => some (f e)
      | none => none
  , disabled := match onDisabled with
      | some f => f e
      | none => false }

/-- Function `handleToogle` of `ToolbarButtonDefault` (lines 59-61):
`if (onToggle) onToggle(editor)`. The side effect of a toggle callback is
modelled as a transformation of the editor value, so the absent-callback
branch leaves the editor untouched. -/
def ToolbarButtonDefault.handleToogle {E : Type}
    (onToggle : Option (E → E)) (e : E) : E :=
  match onToggle with
  | some f => f e
  | none => e

/-- Function `handleToogle` of `ToolbarDropdownDefault` (lines 111-113):
`if (onToggle) onToggle(editor, value)`. -/
def ToolbarDropdownDefault.handleToogle {E : Type}
    (onToggle : Option (E → String → E)) (e : E) (value : String) : E :=
  match onToggle with
  | some f => f e value
  | none => e

/-- The `ToolbarButton` descriptor interface (lines 25-30): the optional
callbacks; the button tag of the union is carried by the `ToolbarItem`
constructor below. Remaining UI props (`children`, `title`, ...) are out
of scope of the claims and summarised by nothing here. -/
structure ToolbarButton (E : Type) where
  onActive : Option (E → Bool) := none
  onDisabled : Option (E → Bool) := none
  onToggle : Option (E → E) := none

/-- The `ToolbarDropdown` descriptor interface (lines 76-82). -/
structure ToolbarDropdown (E : Type) where
  onActive : Option (E → String) := none
  onDisabled : Option (E → Bool) := none
  onToggle : Option (E → String → E) := none

/-- Union type `ToolbarItem = ToolbarButton | ToolbarDropdown | separator`
(line 128, where separator is the string literal tag): a union of exactly
three kinds. -/
inductive ToolbarItem (E : Type) where
  | button (b : ToolbarButton E)
  | dropdown (d : ToolbarDropdown E)
  | separator

/-- The React node produced by `renderItem` (lines 161-170): a
`ToolbarSeparator`, a `ToolbarButton` component with the props of the
descriptor, or a `ToolbarDropdown` component with those props. -/
inductive Rendered (E : Type) where
  | separatorNode
  | buttonNode (props : ToolbarButton E)
  | dropdownNode (props : ToolbarDropdown E)

/-- Function `renderItem` (lines 161-170): an item equal to the
separator literal renders a `ToolbarSeparator`; otherwise the switch on
`item.type` renders a `ToolbarButton` or `ToolbarDropdown` spreading the
item as props. -/
def renderItem {E : Type} (item : ToolbarItem E) : Rendered E :=
  match item with
  | ToolbarItem.separator => Rendered.separatorNode
  | ToolbarItem.button b => Rendered.buttonNode b
  | ToolbarItem.dropdown d => Rendered.dropdownNode d

/-- A value of `editor.onSelectionChange`: either a handler `ext h`
owned by the environment before the `Toolbar` mounted, or the wrapper
closure installed at lines 150-154, which closes over the handler
`saved` it replaced. -/
inductive HandlerVal (H : Type) where
  | ext (h : H)
  | wrapper (saved : HandlerVal H)
deriving DecidableEq, Repr

/-- Observable events of one invocation of a selection-change handler:
`extRun h` is the external handler `h` executing its own behavior,
`notify l e` is registered listener `l` being called with the editor
`e`, and `render items` is the `setItems` call that makes `items` the
rendered item list. -/
inductive Ev (E L I H : Type) where
  | extRun (h : H)
  | notify (l : L) (e : E)
  | render (items : List I)
deriving DecidableEq, Repr

/-- Function `dispatch` (lines 147-149):
`eventListeners.forEach(callback => callback(editor))`, invoking the
callbacks one after another in array order. -/
def dispatch {E L I H : Type} (listeners : List L) (e : E) :
    List (Ev E L I H) :=
  List.foldl (fun acc l => acc ++ [Ev.notify l e]) [] listeners

/-- Invoking a selection-change handler (trace semantics). An external
handler runs its own behavior. The wrapper installed at lines 150-154
runs `onSelectionChange()` (the saved handler), then `dispatch()`, then
`setItems(editor.onToolbar(itemsProp || []))`; `listeners` is the
content of the `eventListeners` ref at invocation time, `onToolbar` the
item hook of the editor and `itemsProp` the `items` prop. -/
def runHandler {E L I H : Type} (e : E) (listeners : List L)
    (onToolbar : List I → List I) (itemsProp : Option (List I)) :
    HandlerVal H → List (Ev E L I H)
  | HandlerVal.ext h => [Ev.extRun h]
  | HandlerVal.wrapper saved =>
      runHandler e listeners onToolbar itemsProp saved
        ++ dispatch listeners e
        ++ [Ev.render (onToolbar (itemsProp.getD []))]

/-- The `items` each `setItems` call receives (line 153): the argument
of every `Ev.render` event in a trace, in order. -/
def rendersIn {E L I H : Type} (t : List (Ev E L I H)) : List (List I) :=
  t.filterMap (fun ev => match ev with
    | Ev.render items => some items
    | _ => none)

/-- Initial value of the `items` state of `Toolbar` (line 141):
`useState<ToolbarItem[]>([])`. -/
def Toolbar.initialItems {I : Type} : List I := []

/-- The external `Editable` object as this file sees it (lines 139,
189-191): `eid` stands for the JS object identity (the `WeakMap` key),
`base` for all fields this package never touches, `onSelectionChange`
for the reassignable selection-change hook, and `onToolbar` for the
field `withToolbar` installs (`none` when the field is absent, so that
JS truthiness of the field is `Option.isSome`). -/
structure Editor (B H I : Type) where
  eid : Nat
  base : B
  onSelectionChange : HandlerVal H
  onToolbar : Option (List I → List I)

/-- The body and cleanup of the `useLayoutEffect` of `Toolbar`
(lines 145-158): read `const { onSelectionChange } = editor`, assign the
wrapper to `editor.onSelectionChange`, and return a cleanup that assigns
the saved handler back. The result is the mutated editor paired with the
cleanup as a function on editor states. -/
def toolbarMount {B H I : Type} (ed : Editor B H I) :
    Editor B H I × (Editor B H I → Editor B H I) :=
  ({ ed with onSelectionChange := HandlerVal.wrapper ed.onSelectionChange },
   fun cur => { cur with onSelectionChange := ed.onSelectionChange })

/-- Registration function `addEventListener` of the `ToolbarContext` value
(lines 174-175): `eventListeners.push(callback)`. -/
def addEventListener {L : Type} (listeners : List L) (cb : L) : List L :=
  listeners ++ [cb]

/-- JS array indexOf: the index of the first occurrence of
`x`, or `-1` when `x` is absent. -/
def indexOfJS {L : Type} [DecidableEq L] : List L → L → Int
  | [], _ => -1
  | x :: xs, cb =>
      if x = cb then 0
      else
        let r := indexOfJS xs cb
        if r < 0 then -1 else r + 1

/-- JS array splice with one-element delete count: with a negative `start` the
actual index is `max(length + start, 0)`; with `start` beyond the end
nothing is removed; otherwise the one element at `start` is removed. -/
def spliceRemoveOne {L : Type} (xs : List L) (start : Int) : List L :=
  let actual : Nat :=
    if start < 0 then ((xs.length : Int) + start).toNat
    else min start.toNat xs.length
  xs.take actual ++ xs.drop (actual + 1)

/-- The unsubscribe closure returned by `addEventListener`
(lines 176-178): `eventListeners.splice(eventListeners.indexOf(callback), 1)`. -/
def unsubscribe {L : Type} [DecidableEq L] (listeners : List L) (cb : L) :
    List L :=
  spliceRemoveOne listeners (indexOfJS listeners cb)

/-- The `Toolbar` options interface (lines 130-132): an optional
`items` array. -/
structure Toolbar (I : Type) where
  items : Option (List I) := none
deriving Repr

/-- Module-level map `TOOLBAR_OPTIONS = new WeakMap` (line 187),
modelled as a partial map on object identities, initially empty. -/
def TOOLBAR_OPTIONS_empty {I : Type} : Nat → Option (Toolbar I) :=
  fun _ => none

/-- The WeakMap set operation, keyed by object identity. -/
def weakMapSet {V : Type} (m : Nat → Option V) (k : Nat) (v : V) :
    Nat → Option V :=
  fun q => if q = k then some v else m q

/-- Predicate `ToolbarEditor.isToolbarEditor` (lines 194-196):
`!!(editor as ToolbarEditor).onToolbar`, the truthiness of the
`onToolbar` field (a function value is always truthy). -/
def ToolbarEditor.isToolbarEditor {B H I : Type} (ed : Editor B H I) :
    Bool :=
  ed.onToolbar.isSome

/-- Accessor `ToolbarEditor.getOptions` (lines 198-200):
`TOOLBAR_OPTIONS.get(editor) ?? {}`. -/
def ToolbarEditor.getOptions {B H I : Type}
    (m : Nat → Option (Toolbar I)) (ed : Editor B H I) : Toolbar I :=
  (m ed.eid).getD { items := none }

/-- Plugin installer `withToolbar` (lines 203-211): store `options` in `TOOLBAR_OPTIONS`
under the editor, install `newEditor.onToolbar = items => items`, and
return the same editor object. The result pairs the updated map with
the mutated editor. -/
def withToolbar {B H I : Type} (m : Nat → Option (Toolbar I))
    (ed : Editor B H I) (options : Toolbar I) :
    (Nat → Option (Toolbar I)) × Editor B H I :=
  (weakMapSet m ed.eid options,
   { ed with onToolbar := some (fun items => items) })

/-- A sequence of `withToolbar` calls against the module-level
`TOOLBAR_OPTIONS` map, starting from the empty map. -/
def applyWithToolbarCalls {B H I : Type}
    (calls : List (Editor B H I × Toolbar I)) :
    Nat → Option (Toolbar I) :=
  List.foldl (fun m c => (withToolbar m c.1 c.2).1) TOOLBAR_OPTIONS_empty
    calls

/- Helper lemmas -/

theorem foldl_notify_acc {E L I H : Type} (e : E) (listeners : List L)
    (acc : List (Ev E L I H)) :
    List.foldl (fun acc l => acc ++ [Ev.notify l e]) acc listeners
      = acc ++ listeners.map (fun l => Ev.notify l e) := by
  induction listeners generalizing acc with
  | nil => simp
  | cons x xs ih => simp [List.foldl, ih]

theorem dispatch_eq_map {E L I H : Type} (listeners : List L) (e : E) :
    (dispatch listeners e : List (Ev E L I H))
      = listeners.map (fun l => Ev.notify l e) := by
  simpa [dispatch] using foldl_notify_acc e listeners []

theorem foldl_addEventListener {L : Type} (cbs : List L) (acc : List L) :
    List.foldl addEventListener acc cbs = acc ++ cbs := by
  induction cbs generalizing acc with
  | nil => simp
  | cons x xs ih => simp [List.foldl, addEventListener, ih]

theorem rendersIn_append {E L I H : Type} (s t : List (Ev E L I H)) :
    rendersIn (s ++ t) = rendersIn s ++ rendersIn t := by
  simp [rendersIn]

theorem rendersIn_dispatch {E L I H : Type} (listeners : List L) (e : E) :
    rendersIn (dispatch listeners e : List (Ev E L I H)) = [] := by
  rw [dispatch_eq_map]
  induction listeners with
  | nil => rfl
  | cons x xs _ih => simp [rendersIn]

theorem indexOfJS_of_not_mem {L : Type} [DecidableEq L] {xs : List L}
    {cb : L} (h : cb ∉ xs) : indexOfJS xs cb = -1 := by
  induction xs with
  | nil => rfl
  | cons x xs ih =>
      have hx : ¬x = cb := by
        intro hxc
        exact h (by simp [hxc])
      have hxs : cb ∉ xs := fun hm => h (List.mem_cons_of_mem _ hm)
      simp [indexOfJS, hx, ih hxs]

theorem indexOfJS_of_mem {L : Type} [DecidableEq L] {xs : List L} {cb : L}
    (h : cb ∈ xs) : ∃ i : Nat, indexOfJS xs cb = (i : Int) ∧ i < xs.length := by
  induction xs with
  | nil => cases h
  | cons x xs ih =>
      by_cases hx : x = cb
      · exact ⟨0, by simp [indexOfJS, hx], by simp⟩
      · have hxs : cb ∈ xs := by
          rcases List.mem_cons.mp h with h1 | h2
          · exact absurd h1.symm hx
          · exact h2
        rcases ih hxs with ⟨i, hi, hlen⟩
        refine ⟨i + 1, ?_, by simpa using Nat.succ_lt_succ hlen⟩
        have hnonneg : ¬((i : Int) < 0) := by
          exact not_lt.mpr (Int.natCast_nonneg i)
        simp [indexOfJS, hx, hi, hnonneg]

theorem spliceRemoveOne_natCast {L : Type} (xs : List L) (i : Nat)
    (h : i < xs.length) :
    spliceRemoveOne xs (i : Int) = xs.take i ++ xs.drop (i + 1) := by
  have hnonneg : ¬((i : Int) < 0) := not_lt.mpr (Int.natCast_nonneg i)
  have hmin : min i xs.length = i := Nat.min_eq_left (Nat.le_of_lt h)
  simp [spliceRemoveOne, hnonneg, Int.toNat_natCast, hmin]

theorem spliceRemoveOne_neg_one {L : Type} (xs : List L) :
    spliceRemoveOne xs (-1) = xs.dropLast := by
  cases xs with
  | nil => rfl
  | cons x ys =>
      have hact : ((((x :: ys).length : Nat) : Int) + (-1)).toNat = ys.length := by
        simp
      have hdrop : (x :: ys).drop (ys.length + 1) = [] := by
        apply List.drop_eq_nil_of_le
        simp
      have htake : (x :: ys).take ys.length = (x :: ys).dropLast := by
        rw [List.dropLast_eq_take]
        simp
      simp only [spliceRemoveOne, if_pos (by decide : (-1 : Int) < 0), hact,
        hdrop, htake, List.append_nil]

theorem applyCalls_apply_not_mem {B H I : Type}
    (calls : List (Editor B H I × Toolbar I)) (m : Nat → Option (Toolbar I))
    (k : Nat) (h : k ∉ calls.map (fun c => c.1.eid)) :
    List.foldl (fun m c => (withToolbar m c.1 c.2).1) m calls k = m k := by
  induction calls generalizing m with
  | nil => rfl
  | cons c cs ih =>
      have hk : k ∉ cs.map (fun c => c.1.eid) := by
        intro hm
        exact h (by simp [hm])
      have hne : ¬k = c.1.eid := by
        intro he
        exact h (by simp [he])
      rw [List.foldl_cons, ih _ hk]
      simp [withToolbar, weakMapSet, hne]

/- Claim theorems -/

/-- C1: when the `Toolbar` mounts, its layout effect replaces
`editor.onSelectionChange` with a wrapper over the previously installed
handler, and every invocation of the wrapper first runs the saved
handler in full, then notifies each currently registered listener with
the editor (and finally re-derives the item list). -/
theorem claim1_mount_wraps_selection_change {B E L I H : Type}
    (ed : Editor B H I) (hv : HandlerVal H) (listeners : List L) (e : E)
    (onToolbar : List I → List I) (itemsProp : Option (List I)) :
    (toolbarMount ed).1.onSelectionChange
        = HandlerVal.wrapper ed.onSelectionChange
      ∧ runHandler e listeners onToolbar itemsProp (HandlerVal.wrapper hv)
        = runHandler e listeners onToolbar itemsProp hv
            ++ (listeners.map (fun l => Ev.notify l e)
              ++ [Ev.render (onToolbar (itemsProp.getD []))]) := by
  refine ⟨rfl, ?_⟩
  rw [runHandler, dispatch_eq_map, List.append_assoc]

/-- C2: the state a change notification leaves in a `ToolbarButton` with
both callbacks provided is exactly `⟨onActive editor, onDisabled editor⟩`,
and the `value` a `ToolbarDropdown` with `onActive` provided derives is
exactly `onActive editor`. -/
theorem claim2_derived_state_matches_callbacks {E : Type} (e : E)
    (fa fd : E → Bool) (fv : E → String) (od : Option (E → Bool)) :
    ToolbarButtonDefault.onChange (some fa) (some fd) e
        = { active := fa e, disabled := fd e }
      ∧ (ToolbarDropdownDefault.onChange (some fv) od e).value
        = some (fv e) := by
  exact ⟨rfl, rfl⟩

/-- C3 (counterexample): on initial mount the `items` state is `[]`
(line 141) and no `setItems` has run, so with `itemsProp = [separator]`
and the default `onToolbar` installed by `withToolbar`, the rendered
item list differs from `onToolbar(itemsProp || [])`. -/
theorem claim3_counterexample :
    (Toolbar.initialItems : List (ToolbarItem Nat))
      ≠ ((withToolbar TOOLBAR_OPTIONS_empty
            ({ eid := 0, base := (), onSelectionChange := HandlerVal.ext (),
               onToolbar := none } : Editor Unit Unit (ToolbarItem Nat))
            { items := some [ToolbarItem.separator] }).2.onToolbar.getD
          (fun items => items))
        ((some [ToolbarItem.separator]).getD []) := by
  simp [Toolbar.initialItems, withToolbar]

/-- C3 (amended): after each selection-change notification the `Toolbar`
sets its item list to `editor.onToolbar(itemsProp || [])` — the wrapper
appends exactly that one `setItems` to whatever the saved handler did,
and with an external saved handler it is the only `setItems` — but on
initial mount, before any notification, the rendered item list is the
empty list, not `onToolbar(itemsProp || [])`. -/
theorem claim3_items_after_change {E L I H : Type} (e : E)
    (listeners : List L) (onToolbar : List I → List I)
    (itemsProp : Option (List I)) (hv : HandlerVal H) (h : H) :
    rendersIn (runHandler e listeners onToolbar itemsProp
        (HandlerVal.wrapper hv))
      = rendersIn (runHandler e listeners onToolbar itemsProp hv)
        ++ [onToolbar (itemsProp.getD [])]
    ∧ rendersIn (runHandler e listeners onToolbar itemsProp
        (HandlerVal.wrapper (HandlerVal.ext h)))
      = [onToolbar (itemsProp.getD [])]
    ∧ (Toolbar.initialItems : List I) = [] := by
  have hstep : ∀ hw : HandlerVal H,
      rendersIn (runHandler e listeners onToolbar itemsProp
          (HandlerVal.wrapper hw))
        = rendersIn (runHandler e listeners onToolbar itemsProp hw)
          ++ [onToolbar (itemsProp.getD [])] := by
    intro hw
    rw [runHandler, rendersIn_append, rendersIn_append, rendersIn_dispatch]
    simp [rendersIn]
  refine ⟨hstep hv, ?_, rfl⟩
  rw [hstep (HandlerVal.ext h)]
  simp [runHandler, rendersIn]

/-- C4: a `ToolbarButton` with no `onActive` derives `active = false` and
with no `onDisabled` derives `disabled = false`; a `ToolbarDropdown` with
no `onActive` derives `value = undefined` and with no `onDisabled`
derives `disabled = false`; and a toggle with no `onToggle` callback
leaves the editor untouched. -/
theorem claim4_absent_callbacks_default_safe {E : Type} (e : E)
    (oa od : Option (E → Bool)) (ov : Option (E → String)) (s : String) :
    (ToolbarButtonDefault.onChange none od e).active = false
    ∧ (ToolbarButtonDefault.onChange oa none e).disabled = false
    ∧ (ToolbarDropdownDefault.onChange none od e).value = none
    ∧ (ToolbarDropdownDefault.onChange ov none e).disabled = false
    ∧ ToolbarButtonDefault.handleToogle none e = e
    ∧ ToolbarDropdownDefault.handleToogle none e s = e := by
  exact ⟨rfl, rfl, rfl, rfl, rfl, rfl⟩

/-- C5: the listener array built by successive `addEventListener` calls
holds the callbacks in registration order, and `dispatch` produces
exactly one notification per registered listener, carrying the editor,
in that order. -/
theorem claim5_dispatch_in_registration_order {E L I H : Type}
    (cbs : List L) (e : E) :
    List.foldl addEventListener ([] : List L) cbs = cbs
    ∧ dispatch (List.foldl addEventListener ([] : List L) cbs) e
      = cbs.map (fun l => (Ev.notify l e : Ev E L I H)) := by
  have hreg : List.foldl addEventListener ([] : List L) cbs = cbs := by
    simpa using foldl_addEventListener cbs []
  exact ⟨hreg, by rw [hreg, dispatch_eq_map]⟩

/-- C6: installing the selection-change wrapper at mount and running the
cleanup of the effect restores the editor exactly: `onSelectionChange` is the
handler from before the mount, and nothing else changed. -/
theorem claim6_cleanup_restores_handler {B H I : Type}
    (ed : Editor B H I) :
    (toolbarMount ed).2 (toolbarMount ed).1 = ed := by
  rfl

/-- C7: `renderItem` maps each toolbar item by its kind — the separator
value to a `ToolbarSeparator` node, a button descriptor to a
`ToolbarButton` node with the props of that descriptor, a dropdown
descriptor to a `ToolbarDropdown` node with the props of that
descriptor — and every `ToolbarItem` is one of these three kinds. -/
theorem claim7_renderItem_by_kind {E : Type} :
    renderItem (ToolbarItem.separator : ToolbarItem E)
        = Rendered.separatorNode
    ∧ (∀ b : ToolbarButton E,
        renderItem (ToolbarItem.button b) = Rendered.buttonNode b)
    ∧ (∀ d : ToolbarDropdown E,
        renderItem (ToolbarItem.dropdown d) = Rendered.dropdownNode d)
    ∧ ∀ item : ToolbarItem E, item = ToolbarItem.separator
        ∨ (∃ b, item = ToolbarItem.button b)
        ∨ (∃ d, item = ToolbarItem.dropdown d) := by
  refine ⟨rfl, fun b => rfl, fun d => rfl, fun item => ?_⟩
  cases item with
  | button b => exact Or.inr (Or.inl ⟨b, rfl⟩)
  | dropdown d => exact Or.inr (Or.inr ⟨d, rfl⟩)
  | separator => exact Or.inl rfl

/-- C8 (counterexample): register listeners `0` then `1`; the first call
of the unsubscribe for `0` leaves `[1]`, but the second call computes
`indexOf(0) = -1` and `splice(-1, 1)` removes the last element, leaving
`[]` — the second call changed the listener list. -/
theorem claim8_counterexample :
    unsubscribe
        (unsubscribe
          (addEventListener (addEventListener ([] : List Nat) 0) 1) 0) 0
      ≠ unsubscribe
          (addEventListener (addEventListener ([] : List Nat) 0) 1) 0 := by
  decide

/-- C8 (amended): unsubscribing removes the first occurrence of the
callback when it is present; when the callback is absent — as after a
first unsubscribe of a once-registered callback — the call instead drops
the last element of the listener list, so a second call is a no-op only
when the list is already empty. -/
theorem claim8_unsubscribe_removes_first {L : Type} [DecidableEq L]
    (xs : List L) (cb : L) :
    (cb ∈ xs → unsubscribe xs cb = xs.erase cb)
    ∧ (cb ∉ xs → unsubscribe xs cb = xs.dropLast) := by
  constructor
  · induction xs with
    | nil => intro h; cases h
    | cons x ys ih =>
        intro h
        by_cases hx : x = cb
        · subst hx
          have hidx : indexOfJS (x :: ys) x = 0 := by simp [indexOfJS]
          have h0 : spliceRemoveOne (x :: ys) ((0 : Nat) : Int) =
              (x :: ys).take 0 ++ (x :: ys).drop 1 :=
            spliceRemoveOne_natCast (x :: ys) 0 (by simp)
          rw [unsubscribe, hidx]
          simpa using h0
        · have hmem : cb ∈ ys := by
            rcases List.mem_cons.mp h with h1 | h2
            · exact absurd h1.symm hx
            · exact h2
          rcases indexOfJS_of_mem hmem with ⟨i, hi, hlen⟩
          have hnonneg : ¬(indexOfJS ys cb < 0) := by
            rw [hi]
            exact not_lt.mpr (Int.natCast_nonneg i)
          have hidx : indexOfJS (x :: ys) cb = ((i + 1 : Nat) : Int) := by
            simp [indexOfJS, hx, hnonneg, hi]
          have hlen1 : i + 1 < (x :: ys).length := by
            simpa using Nat.succ_lt_succ hlen
          rw [unsubscribe, hidx, spliceRemoveOne_natCast _ _ hlen1]
          have hun : ys.take i ++ ys.drop (i + 1) = ys.erase cb := by
            have hys := ih hmem
            rw [unsubscribe, hi, spliceRemoveOne_natCast _ _ hlen] at hys
            exact hys
          rw [List.take_succ_cons, List.drop_succ_cons, List.cons_append,
            hun, List.erase_cons_tail (by simpa using hx)]
  · intro h
    rw [unsubscribe, indexOfJS_of_not_mem h, spliceRemoveOne_neg_one]

/-- C8 (amended, witness): with listeners `[1, 2]`, unsubscribing `1`
yields `[2]`; unsubscribing the absent `1` from `[2]` yields `[]`. -/
theorem claim8_unsubscribe_removes_first_witness :
    unsubscribe [1, 2] 1 = ([1, 2] : List Nat).erase 1
    ∧ unsubscribe [2] 1 = ([2] : List Nat).dropLast :=
  ⟨(claim8_unsubscribe_removes_first [1, 2] 1).1 (by decide),
   (claim8_unsubscribe_removes_first [2] 1).2 (by decide)⟩

/-- C9: immediately after `withToolbar(editor, options)`,
`ToolbarEditor.getOptions` returns exactly the stored `options` for the
returned editor; and for an editor whose identity was never passed to
any `withToolbar` call, `getOptions` returns the empty options object. -/
theorem claim9_getOptions_roundtrip {B H I : Type}
    (m : Nat → Option (Toolbar I)) (ed : Editor B H I) (opts : Toolbar I)
    (calls : List (Editor B H I × Toolbar I)) (e2 : Editor B H I)
    (hnot : e2.eid ∉ calls.map (fun c => c.1.eid)) :
    ToolbarEditor.getOptions (withToolbar m ed opts).1
        (withToolbar m ed opts).2 = opts
    ∧ ToolbarEditor.getOptions (applyWithToolbarCalls calls) e2
      = { items := none } := by
  constructor
  · simp [ToolbarEditor.getOptions, withToolbar, weakMapSet]
  · rw [ToolbarEditor.getOptions, applyWithToolbarCalls,
      applyCalls_apply_not_mem calls TOOLBAR_OPTIONS_empty e2.eid hnot]
    rfl

/-- C9 (witness): a concrete round-trip through `withToolbar` on an
editor with identity `0`, and a `getOptions` miss for identity `0` after
a `withToolbar` call on an editor with identity `1`. -/
theorem claim9_getOptions_roundtrip_witness :
    ToolbarEditor.getOptions
        (withToolbar TOOLBAR_OPTIONS_empty
          ({ eid := 0, base := (), onSelectionChange := HandlerVal.ext (),
             onToolbar := none } : Editor Unit Unit Unit)
          { items := some [(), ()] }).1
        (withToolbar TOOLBAR_OPTIONS_empty
          ({ eid := 0, base := (), onSelectionChange := HandlerVal.ext (),
             onToolbar := none } : Editor Unit Unit Unit)
          { items := some [(), ()] }).2
      = { items := some [(), ()] }
    ∧ ToolbarEditor.getOptions
        (applyWithToolbarCalls
          [(({ eid := 1, base := (), onSelectionChange := HandlerVal.ext (),
               onToolbar := none } : Editor Unit Unit Unit),
            ({ items := none } : Toolbar Unit))])
        ({ eid := 0, base := (), onSelectionChange := HandlerVal.ext (),
           onToolbar := none } : Editor Unit Unit Unit)
      = { items := none } :=
  claim9_getOptions_roundtrip TOOLBAR_OPTIONS_empty _ _ _ _ (by simp)

/-- C10: `withToolbar` returns the same editor object (same identity),
leaves `base` and `onSelectionChange` untouched, sets `onToolbar` to the
identity on item lists, and afterwards
`ToolbarEditor.isToolbarEditor` returns `true`. -/
theorem claim10_withToolbar_frame {B H I : Type}
    (m : Nat → Option (Toolbar I)) (ed : Editor B H I)
    (opts : Toolbar I) (items : List I) :
    (withToolbar m ed opts).2.eid = ed.eid
    ∧ (withToolbar m ed opts).2.base = ed.base
    ∧ (withToolbar m ed opts).2.onSelectionChange = ed.onSelectionChange
    ∧ (withToolbar m ed opts).2.onToolbar = some (fun items => items)
    ∧ ((withToolbar m ed opts).2.onToolbar.getD (fun l => l)) items = items
    ∧ ToolbarEditor.isToolbarEditor (withToolbar m ed opts).2 = true := by
  exact ⟨rfl, rfl, rfl, rfl, rfl, rfl⟩

end EditablePlugin
